import Mathlib

/-!
Verification development for the `home_bittorrent_bot` repository.

The repository is a small Telegram bot (Rust) that relays torrent sources
(uploaded `.torrent` files or `magnet:?` links) to a qBittorrent daemon's
HTTP management API on behalf of an allow-listed set of users.

This file shallowly embeds the relevant parts of the source:
  * `src/client.rs`  — `QBittorrentClient` (login, add_new_torrent, RequestType::to_part)
  * `src/main.rs`    — `torrents_handler`, `commands_handler`,
                       `commands_callback_handler`, `add_new_torrent`
  * `src/state.rs`   — `BotState::new` allow-list parsing, `user_allowed`
  * `src/util.rs`    — `ResultExt::log_error` (modelled as the identity on the
                       result value; logging has no effect on handler output)

Network effects are modelled by passing the daemon's responses (and the
outcome of the Telegram file fetch) in as explicit oracle data, while the
embedding records the trace of outbound HTTP requests the handlers issue.
-/

namespace BitBot

/-! ### Character-list string primitives

Rust `str` operations used by the source, modelled structurally over
`List Char` so that concrete instances reduce in the kernel.  For the
ASCII patterns used by this program (decimal digits, `magnet:?`,
`,`), byte-level containment on UTF-8 strings coincides with
character-level containment. -/

/-- Models Rust `str::contains(pat)` (substring containment) at the
character level: `charsContain hay nd = true` iff `nd` occurs contiguously
inside `hay`. -/
def charsContain (hay nd : List Char) : Bool :=
  if nd.isPrefixOf hay then true
  else
    match hay with
    | [] => false
    | _ :: rest => charsContain rest nd

/-- Models Rust `str::split(',')`: splits a character list at every comma,
keeping empty pieces (so the empty string yields one empty entry, as in Rust). -/
def splitCommaAux (cs : List Char) (acc : List Char) : List (List Char) :=
  match cs with
  | [] => [acc.reverse]
  | c :: rest =>
    if c = ',' then acc.reverse :: splitCommaAux rest []
    else splitCommaAux rest (c :: acc)

/-- The comma-separated entries of a configuration string
(`configuration.user_id.split(',')` in `src/state.rs`). -/
def splitEntries (s : String) : List String :=
  (splitCommaAux s.toList []).map fun cs => String.mk cs

/-- Digit-run parser: `some n` when `cs` is a non-empty run of ASCII decimal
digits with value `n`, `none` otherwise. -/
def digitsToNat : List Char → Option Nat
  | [] => none
  | cs =>
    if cs.all (fun c => c.isDigit) then
      some (cs.foldl (fun a c => a * 10 + (c.toNat - 48)) 0)
    else none

/-- Models Rust `str::parse::<i64>()`: optional single leading `+`/`-` sign,
then a non-empty run of decimal digits, with the value required to fit in a
signed 64-bit integer. Anything else (empty string, spaces, other characters,
overflow) fails. -/
def parseI64 (s : String) : Option Int :=
  match s.toList with
  | '+' :: rest =>
    (digitsToNat rest).bind fun n =>
      if n ≤ 2 ^ 63 - 1 then some (n : Int) else none
  | '-' :: rest =>
    (digitsToNat rest).bind fun n =>
      if n ≤ 2 ^ 63 then some (-(n : Int)) else none
  | cs =>
    (digitsToNat cs).bind fun n =>
      if n ≤ 2 ^ 63 - 1 then some (n : Int) else none

/-! ### Allow-list parsing (`src/state.rs`, `BotState::new`)

The source builds
`configuration.user_id.split(',').map(|id| Ok(id.parse::<i64>()?)).filter_map(Result::ok).collect::<HashSet<i64>>()`:
each entry is mapped to a `Result`, failed parses are filtered out, and the
survivors are collected into a set. -/

/-- The per-entry `Result`s of `BotState::new`: `Ok(v)` for entries that
parse as `i64`, `Err` for the rest. -/
def entryResults (s : String) : List (Except String Int) :=
  (splitEntries s).map fun e =>
    match parseI64 e with
    | some v => Except.ok v
    | none => Except.error "invalid allow-list entry"

/-- Models the `allowed_user_ids` set computed by `BotState::new`
(`src/state.rs` lines 36–39): split on commas, parse each entry as `i64`,
silently drop failures, collect into a set. -/
def allowed_user_ids (s : String) : Finset Int :=
  ((entryResults s).filterMap fun r => r.toOption).toFinset

/-- Models `BotState::user_allowed` (`src/state.rs` lines 56–58):
membership of the numeric sender id in the parsed allow-list set. -/
def user_allowed (s : String) (id : Int) : Bool :=
  id ∈ allowed_user_ids s

/-- Models the authorization test actually performed by the wired handlers in
`src/main.rs` (lines 93 and 121):
`state.configuration.user_id.contains(&from.id.to_string())` — Rust
`String::contains` with a string pattern, i.e. *substring* containment of the
sender id's decimal rendering in the raw configuration string. -/
def userAuthorized (user_id_cfg : String) (id : Int) : Bool :=
  charsContain user_id_cfg.toList (toString id).toList

/-! ### HTTP primitives -/

/-- Models `reqwest::StatusCode::is_success()`: status in `200..=299`. -/
def isSuccess (status : Nat) : Bool :=
  200 ≤ status && status < 300

/-- An HTTP response as this program consumes it: status code plus the body
text returned by `res.text()`. -/
structure HttpResponse where
  status : Nat
  body : String
deriving DecidableEq, Repr

/-- UTF-8 encoding of one character (the byte sequence Rust's
`str::as_bytes` produces for it). -/
def utf8Bytes (c : Char) : List Nat :=
  let n := c.toNat
  if n < 128 then [n]
  else if n < 2048 then [192 + n / 64, 128 + n % 64]
  else if n < 65536 then [224 + n / 4096, 128 + n / 64 % 64, 128 + n % 64]
  else [240 + n / 262144, 128 + n / 4096 % 64, 128 + n / 64 % 64, 128 + n % 64]

/-- Models Rust `str::as_bytes().to_vec()`: the UTF-8 bytes of a string. -/
def textBytes (s : String) : List Nat :=
  s.toList.flatMap utf8Bytes

/-- Model of a parsed `reqwest::Url`, restricted to what this program
observes of it: an origin (scheme, host, optional port) and a path.
`QBittorrentClient::new` parses the configured base address into such a
value; parsing itself is an external library call, modelled as oracle
input (`Env.parsedBase` below). -/
structure Url where
  scheme : String
  host : String
  port : Option Nat
  path : String
deriving DecidableEq, Repr

/-- The origin part `scheme://host[:port]` of a URL. -/
def Url.origin (u : Url) : String :=
  u.scheme ++ "://" ++ u.host ++
    (match u.port with
     | some p => ":" ++ toString p
     | none => "")

/-- Models `Url::to_string()`: origin followed by path. -/
def Url.render (u : Url) : String :=
  u.origin ++ u.path

/-- Models `Url::join(endpoint)` for the absolute-path endpoints this
program uses (every endpoint string in `src/client.rs` starts with `/`,
so the join replaces the base URL's path). -/
def Url.joinAbs (u : Url) (endpoint : String) : Url :=
  { u with path := endpoint }

/-! ### The daemon client (`src/client.rs`) -/

/-- One part of a `reqwest::multipart::Form`: its byte content, optional
`file_name`, and optional `mime_str` override. -/
structure Part where
  bytes : List Nat
  fileName : Option String
  mime : Option String
deriving DecidableEq, Repr

/-- Models `RequestType` (`src/client.rs` lines 86–89): either a magnet/URL
string or the raw bytes of a `.torrent` file. -/
inductive RequestType where
  | url (s : String)
  | file (bytes : List Nat)
deriving DecidableEq, Repr

/-- Models `RequestType::to_part` (`src/client.rs` lines 92–102).
`Url` becomes part name `urls` with the text's raw bytes and no
filename/MIME; `File` becomes part name `torrents` with the file bytes,
filename `torrent.torrent`, MIME `application/x-bittorrent`.
In the source `mime_str` returns a `Result`, but it is only ever applied to
the constant literal `application/x-bittorrent`, a valid MIME string on
which it always succeeds, so the embedding is total. -/
def RequestType.to_part : RequestType → String × Part
  | .url u => ("urls", { bytes := textBytes u, fileName := none, mime := none })
  | .file b =>
    ("torrents",
      { bytes := b, fileName := some "torrent.torrent",
        mime := some "application/x-bittorrent" })

/-- The error outcomes of the client and dispatch pipeline, each carrying
the data the corresponding `anyhow!` format string interpolates. -/
inductive BotError where
  | invalidUrl
  | authFailed
  | addStatusError (bodyText : String)
  | addBodyError (bodyText : String)
  | fetchFailed (msg : String)
deriving DecidableEq, Repr

/-- The HTTP request `QBittorrentClient::login` sends. -/
structure LoginRequest where
  url : Url
  contentType : String
  referer : String
  body : String
deriving DecidableEq, Repr

/-- The HTTP request `QBittorrentClient::add_new_torrent` sends: the target
URL and the multipart form, a list of named parts. -/
structure AddRequest where
  url : Url
  form : List (String × Part)
deriving DecidableEq, Repr

namespace QBittorrentClient

/-- The request built by `QBittorrentClient::login` (`src/client.rs`
lines 30–45): POST to `base.join("/api/v2/auth/login")` with a
form-urlencoded content type, the base URL's string rendering as `Referer`,
and body `username={u}&password={p}`. -/
def loginRequest (base : Url) (username password : String) : LoginRequest :=
  { url := base.joinAbs "/api/v2/auth/login"
    contentType := "application/x-www-form-urlencoded"
    referer := base.render
    body := "username=" ++ username ++ "&password=" ++ password }

/-- How `login` classifies the daemon's response (`src/client.rs`
lines 47–51): `Ok(())` on a success status, `Err(anyhow!("Auth failed"))`
otherwise. -/
def loginResult (resp : HttpResponse) : Except BotError Unit :=
  if isSuccess resp.status then Except.ok () else Except.error BotError.authFailed

/-- The request built by `QBittorrentClient::add_new_torrent`
(`src/client.rs` lines 54–65): POST to `base.join("/api/v2/torrents/add")`
with a multipart form holding exactly the one part produced by `to_part`. -/
def add_new_torrent_request (base : Url) (rt : RequestType) : AddRequest :=
  { url := base.joinAbs "/api/v2/torrents/add"
    form := [rt.to_part] }

/-- How `add_new_torrent` classifies the daemon's response (`src/client.rs`
lines 67–82): non-success status fails carrying the response text; a
success status with a body other than the literal `Ok.` fails carrying that
body; only a success status with body exactly `Ok.` succeeds. -/
def add_new_torrent_result (resp : HttpResponse) : Except BotError Unit :=
  if !isSuccess resp.status then
    Except.error (BotError.addStatusError resp.body)
  else if resp.body ≠ "Ok." then
    Except.error (BotError.addBodyError resp.body)
  else
    Except.ok ()

end QBittorrentClient

/-! ### Messages, configuration and the dispatch handlers (`src/main.rs`) -/

/-- The configuration record of `src/main.rs` (lines 186–193). `user_id` is
the raw comma-separated allow-list string. -/
structure Configuration where
  bot_token : String
  user_id : String
  username : String
  password : String
  url : String
deriving DecidableEq, Repr

/-- A message sender (`telers::types::User`), reduced to the numeric id the
program inspects. -/
structure User where
  id : Int
deriving DecidableEq, Repr

/-- An inbound Telegram message as the handlers pattern-match it: a document
attachment, a plain text, or any other variant; each carries the optional
sender returned by `message.from()` and the chat id. -/
inductive Message where
  | document (sender : Option User) (chatId : Int) (fileId : String)
  | text (sender : Option User) (chatId : Int) (content : String)
  | other (sender : Option User) (chatId : Int)
deriving DecidableEq, Repr

/-- Models `message.from()`. -/
def Message.sender : Message → Option User
  | .document s _ _ => s
  | .text s _ _ => s
  | .other s _ => s

/-- The daemon's behaviour on one ingestion attempt, given as oracle data:
its response to the login POST and its response to the add-torrent POST. -/
structure Daemon where
  loginResp : HttpResponse
  addResp : HttpResponse
deriving DecidableEq, Repr

instance {ε α : Type} [DecidableEq ε] [DecidableEq α] : DecidableEq (Except ε α) := fun x y =>
  match x, y with
  | Except.error a, Except.error b =>
    if h : a = b then isTrue (by rw [h]) else isFalse (fun hh => by cases hh; exact h rfl)
  | Except.ok a, Except.ok b =>
    if h : a = b then isTrue (by rw [h]) else isFalse (fun hh => by cases hh; exact h rfl)
  | Except.error _, Except.ok _ => isFalse (fun hh => by cases hh)
  | Except.ok _, Except.error _ => isFalse (fun hh => by cases hh)

/-- The external-world oracle for one handler invocation:
`parsedBase` is the result of `Url::parse` on the configured base address
(inside `QBittorrentClient::new`); `daemon` the daemon's responses; `fetch`
the collapsed outcome of the Telegram `GetFile` call plus the file download
(`add_torrent_by_file`, `download_torrent_file`) — `Except.ok bytes` when
both succeed, an error message when any step of the fetch fails. -/
structure Env where
  parsedBase : Option Url
  daemon : Daemon
  fetch : Except String (List Nat)
deriving DecidableEq, Repr

/-- One outbound HTTP request of an ingestion attempt: the daemon login
POST, the daemon add-torrent POST, or the Telegram file fetch. -/
inductive Req where
  | login (r : LoginRequest)
  | add (r : AddRequest)
  | fetch
deriving DecidableEq, Repr

/-- Whether a request is the add-torrent (submit) POST. -/
def Req.isAdd : Req → Bool
  | .add _ => true
  | _ => false

/-- Models `add_new_torrent` in `src/main.rs` (lines 254–263): build a fresh
client from the configured URL (parse failure aborts with no request), then
`login` (its `?` propagates failure), then `add_new_torrent`. Returns the
trace of daemon requests issued alongside the result. -/
def add_new_torrent_flow (env : Env) (cfg : Configuration) (rt : RequestType) :
    List Req × Except BotError Unit :=
  match env.parsedBase with
  | none => ([], Except.error BotError.invalidUrl)
  | some base =>
    let lreq := QBittorrentClient.loginRequest base cfg.username cfg.password
    match QBittorrentClient.loginResult env.daemon.loginResp with
    | Except.error e => ([Req.login lreq], Except.error e)
    | Except.ok _ =>
      let areq := QBittorrentClient.add_new_torrent_request base rt
      ([Req.login lreq, Req.add areq],
        QBittorrentClient.add_new_torrent_result env.daemon.addResp)

/-- Models `Income` (`src/main.rs` lines 161–164). -/
inductive Income where
  | enqueued
  | skipped
deriving DecidableEq, Repr

/-- The payload classification and dispatch of `torrents_handler`
(`src/main.rs` lines 126–141), for an already-authorized sender:
a document is fetched then submitted as a `File` payload
(`add_torrent_by_file`); a text beginning with `magnet:?` is submitted as a
`Url` payload carrying the full text (`add_torrent_by_magnet`); any other
text and any other message kind yield `Income::Skipped` with no request. -/
def torrents_payload (cfg : Configuration) (env : Env) :
    Message → List Req × Except BotError Income
  | .document _ _ _ =>
    (match env.fetch with
     | Except.error e => ([Req.fetch], Except.error (BotError.fetchFailed e))
     | Except.ok bytes =>
       let r := add_new_torrent_flow env cfg (RequestType.file bytes)
       (Req.fetch :: r.1, r.2.map fun _ => Income.enqueued))
  | .text _ _ t =>
    if "magnet:?".toList.isPrefixOf t.toList then
      let r := add_new_torrent_flow env cfg (RequestType.url t)
      (r.1, r.2.map fun _ => Income.enqueued)
    else ([], Except.ok Income.skipped)
  | .other _ _ => ([], Except.ok Income.skipped)

/-- The user-facing text `torrents_handler` chooses from the dispatch result
(`src/main.rs` lines 144–150); `ResultExt::log_error` only logs and returns
the result unchanged, so it does not appear here. -/
def replyFor : Except BotError Income → Option String
  | Except.ok Income.enqueued => some "✅Торрент добавлен в очередь"
  | Except.ok Income.skipped => none
  | Except.error _ => some "⛔Ошибка добавления торрента"

/-- What one invocation of a message handler did: the outbound HTTP requests
it issued and the chat reply it sent (to the message's own chat), if any. -/
structure HandlerOutput where
  requests : List Req
  reply : Option String
deriving DecidableEq, Repr

/-- Models `torrents_handler` (`src/main.rs` lines 119–159): if the message
has no sender, nothing happens; if the sender fails the
`configuration.user_id.contains(id.to_string())` test, nothing happens;
otherwise the payload is dispatched and the resulting text (if any) is sent. -/
def torrents_handler (cfg : Configuration) (env : Env) (msg : Message) :
    HandlerOutput :=
  match msg.sender with
  | none => { requests := [], reply := none }
  | some u =>
    if userAuthorized cfg.user_id u.id then
      { requests := (torrents_payload cfg env msg).1
        reply := replyFor (torrents_payload cfg env msg).2 }
    else { requests := [], reply := none }

/-- Models `commands_handler` (`src/main.rs` lines 89–117): no sender or an
unauthorized sender yields no reply; an authorized sender's exact text
`/commands` yields the keyboard message; anything else no reply. This
handler never contacts the daemon. -/
def commands_handler (cfg : Configuration) (msg : Message) : Option String :=
  match msg.sender with
  | none => none
  | some u =>
    if userAuthorized cfg.user_id u.id then
      match msg with
      | .text _ _ t => if t = "/commands" then some "Доступные команды" else none
      | _ => none
    else none

/-- A callback query as `commands_callback_handler` consumes it: its id, the
pressing user, the optional payload string, and the optional chat id. -/
structure CallbackQuery where
  id : String
  sender : User
  data : Option String
  chatId : Option Int
deriving DecidableEq, Repr

/-- What the callback handler did after answering the callback query. -/
inductive CallbackOutcome where
  | reply (chatId : Int) (text : String)
  | noReply
  | panicked
deriving DecidableEq, Repr

/-- Models `commands_callback_handler` (`src/main.rs` lines 71–87): it
always answers the callback query, then, when the payload is `shutdown`,
sends `Выключение...` to `callback.chat_id().unwrap()` (panicking if the
chat id is absent); for any other payload it does nothing further. The
handler takes no state and performs no allow-list check. -/
def commands_callback_handler (q : CallbackQuery) : Bool × CallbackOutcome :=
  (true,
    match q.data with
    | some d =>
      if d = "shutdown" then
        match q.chatId with
        | some c => CallbackOutcome.reply c "Выключение..."
        | none => CallbackOutcome.panicked
      else CallbackOutcome.noReply
    | none => CallbackOutcome.noReply)

/-! ### Concrete fixtures used to instantiate the theorems -/

/-- A concrete configuration whose allow-list string is `42`. -/
def cfgW : Configuration :=
  { bot_token := "t", user_id := "42", username := "u", password := "p",
    url := "http://10.0.0.1:8080/" }

/-- The parsed form of the configured base address `http://10.0.0.1:8080/`. -/
def baseW : Url :=
  { scheme := "http", host := "10.0.0.1", port := some 8080, path := "/" }

/-- A cooperative environment: base URL parses, login and add both succeed,
the file fetch returns two bytes. -/
def envW : Env :=
  { parsedBase := some baseW
    daemon := { loginResp := { status := 200, body := "" }
                addResp := { status := 200, body := "Ok." } }
    fetch := Except.ok [100, 56] }

/-- An environment whose daemon rejects the login with a 403. -/
def envFailW : Env :=
  { parsedBase := some baseW
    daemon := { loginResp := { status := 403, body := "Forbidden" }
                addResp := { status := 200, body := "Ok." } }
    fetch := Except.ok [100, 56] }

end BitBot

namespace BitBot

/-! ### Theorems about the claims -/

/-- C1: the wired handlers authorize by substring containment of the sender
id's decimal string in the raw `user_id` configuration string, not by
membership in the parsed numeric allow-list. With allow-list string `42`
(parsed set `{42}`), sender `4` is not a member — the repository's own
`user_allowed` rejects it — yet `torrents_handler` passes it, issues the
login and add-torrent requests, and replies; `commands_handler` likewise
replies to its `/commands` text. This contradicts the claim that
non-members trigger no daemon request and no reply. -/
theorem substring_auth_admits_nonmember :
    (4 : Int) ∉ allowed_user_ids "42" ∧
    user_allowed "42" 4 = false ∧
    userAuthorized "42" 4 = true ∧
    torrents_handler cfgW envW (Message.text (some { id := 4 }) 7 "magnet:?xt=a") =
      { requests := [Req.login (QBittorrentClient.loginRequest baseW "u" "p"),
                     Req.add (QBittorrentClient.add_new_torrent_request baseW
                       (RequestType.url "magnet:?xt=a"))],
        reply := some "✅Торрент добавлен в очередь" } ∧
    commands_handler cfgW (Message.text (some { id := 4 }) 7 "/commands") =
      some "Доступные команды" := by
  decide

/-- C2: `add_new_torrent` reports success iff the response status is a
success status and the body is exactly `Ok.`; every failure error carries
the actual response text. -/
theorem add_new_torrent_success_iff_ok_body (resp : HttpResponse) :
    (QBittorrentClient.add_new_torrent_result resp = Except.ok () ↔
      isSuccess resp.status = true ∧ resp.body = "Ok.") ∧
    (∀ e, QBittorrentClient.add_new_torrent_result resp = Except.error e →
      e = BotError.addStatusError resp.body ∨ e = BotError.addBodyError resp.body) := by
  unfold QBittorrentClient.add_new_torrent_result
  by_cases h : isSuccess resp.status
  · by_cases hb : resp.body = "Ok." <;> simp [h, hb]
  · simp [h]

theorem add_new_torrent_success_iff_ok_body_witness :
    BotError.addBodyError "Fails." = BotError.addStatusError "Fails." ∨
    BotError.addBodyError "Fails." = BotError.addBodyError "Fails." :=
  (add_new_torrent_success_iff_ok_body { status := 200, body := "Fails." }).2
    (BotError.addBodyError "Fails.") (by decide)

/-- C3 counterexample: sender `99` is not in the allow-list parsed from
`42`, yet `commands_callback_handler` answers the callback query and sends
the shutdown reply — the claim that it performs no action for non-members
is false on the code. -/
theorem callback_replies_to_nonmember :
    (99 : Int) ∉ allowed_user_ids "42" ∧
    userAuthorized "42" 99 = false ∧
    commands_callback_handler
      { id := "cb1", sender := { id := 99 }, data := some "shutdown", chatId := some 5 } =
      (true, CallbackOutcome.reply 5 "Выключение...") := by
  decide

/-- C3 (amended): `commands_callback_handler` applies no allow-list check at
all — for every shutdown callback event with a chat id, whoever the sender
is, it answers the query and sends the fixed shutdown reply. -/
theorem callback_handler_unconditional (q : CallbackQuery) (c : Int)
    (hd : q.data = some "shutdown") (hc : q.chatId = some c) :
    commands_callback_handler q = (true, CallbackOutcome.reply c "Выключение...") := by
  simp [commands_callback_handler, hd, hc]

theorem callback_handler_unconditional_witness :
    commands_callback_handler
      { id := "cb2", sender := { id := 7 }, data := some "shutdown", chatId := some 3 } =
      (true, CallbackOutcome.reply 3 "Выключение...") :=
  callback_handler_unconditional
    { id := "cb2", sender := { id := 7 }, data := some "shutdown", chatId := some 3 }
    3 rfl rfl

/-- C4: a file payload becomes the single part named `torrents` with the raw
file bytes, filename `torrent.torrent` and MIME `application/x-bittorrent`;
a magnet/URL payload becomes the single part named `urls` with the raw text
bytes, no filename and no MIME override; and the add-torrent form holds
exactly that one part. -/
theorem to_part_shapes (s : String) (b : List Nat) (base : Url) :
    RequestType.to_part (RequestType.url s) =
      ("urls", { bytes := textBytes s, fileName := none, mime := none }) ∧
    RequestType.to_part (RequestType.file b) =
      ("torrents", { bytes := b, fileName := some "torrent.torrent",
                     mime := some "application/x-bittorrent" }) ∧
    ∀ rt : RequestType,
      (QBittorrentClient.add_new_torrent_request base rt).form = [rt.to_part] :=
  ⟨rfl, rfl, fun _ => rfl⟩

end BitBot

namespace BitBot

/-- C5: for an authorized sender's text message, a text beginning with
`magnet:?` is dispatched as a URL-variant submission carrying the exact
full text (the handler's requests and reply are those of submitting
`RequestType.url t`), while any other text triggers no request and no
reply. -/
theorem authorized_text_classification (cfg : Configuration) (env : Env)
    (u : User) (chat : Int) (t : String)
    (hauth : userAuthorized cfg.user_id u.id = true) :
    ("magnet:?".toList.isPrefixOf t.toList = true →
      torrents_handler cfg env (Message.text (some u) chat t) =
        { requests := (add_new_torrent_flow env cfg (RequestType.url t)).1
          reply := replyFor ((add_new_torrent_flow env cfg (RequestType.url t)).2.map
                     fun _ => Income.enqueued) }) ∧
    ("magnet:?".toList.isPrefixOf t.toList = false →
      torrents_handler cfg env (Message.text (some u) chat t) =
        { requests := [], reply := none }) := by
  constructor <;> intro h <;>
    · simp only [torrents_handler, Message.sender, torrents_payload, hauth, h]
      simp [replyFor]

theorem authorized_text_classification_witness :
    userAuthorized cfgW.user_id 42 = true ∧
    torrents_handler cfgW envW (Message.text (some { id := 42 }) 7 "magnet:?xt=a") =
      { requests := (add_new_torrent_flow envW cfgW (RequestType.url "magnet:?xt=a")).1
        reply := replyFor ((add_new_torrent_flow envW cfgW (RequestType.url "magnet:?xt=a")).2.map
                   fun _ => Income.enqueued) } :=
  ⟨by decide,
    (authorized_text_classification cfgW envW { id := 42 } 7 "magnet:?xt=a" (by decide)).1
      (by decide)⟩

/-- C6: `login` POSTs to the base endpoint joined with
`/api/v2/auth/login`, with the form-urlencoded content type, the base
endpoint's rendering as `Referer`, and body `username={u}&password={p}`;
it succeeds exactly on a success status and yields the authentication
failure error on any other status. -/
theorem login_request_and_result (base : Url) (u p : String) (resp : HttpResponse) :
    (QBittorrentClient.loginRequest base u p).url = base.joinAbs "/api/v2/auth/login" ∧
    (QBittorrentClient.loginRequest base u p).url.render =
      base.origin ++ "/api/v2/auth/login" ∧
    (QBittorrentClient.loginRequest base u p).contentType =
      "application/x-www-form-urlencoded" ∧
    (QBittorrentClient.loginRequest base u p).referer = base.render ∧
    (QBittorrentClient.loginRequest base u p).body = "username=" ++ u ++ "&password=" ++ p ∧
    (QBittorrentClient.loginResult resp = Except.ok () ↔ isSuccess resp.status = true) ∧
    (isSuccess resp.status = false →
      QBittorrentClient.loginResult resp = Except.error BotError.authFailed) := by
  refine ⟨rfl, rfl, rfl, rfl, rfl, ?_, ?_⟩ <;>
    by_cases h : isSuccess resp.status <;> simp [QBittorrentClient.loginResult, h]

theorem login_request_and_result_witness :
    QBittorrentClient.loginResult { status := 403, body := "Forbidden" } =
      Except.error BotError.authFailed :=
  (login_request_and_result baseW "u" "p" { status := 403, body := "Forbidden" }).2.2.2.2.2.2
    (by decide)

/-- C7: on any ingestion attempt whose login response is not a success
status, the request trace of `add_new_torrent` contains no add-torrent
(submit) POST. -/
theorem login_failure_blocks_submit (env : Env) (cfg : Configuration) (rt : RequestType)
    (hfail : isSuccess env.daemon.loginResp.status = false) :
    ∀ r ∈ (add_new_torrent_flow env cfg rt).1, r.isAdd = false := by
  intro r hr
  unfold add_new_torrent_flow at hr
  cases hpb : env.parsedBase with
  | none => rw [hpb] at hr; simp at hr
  | some base =>
    rw [hpb] at hr
    simp [QBittorrentClient.loginResult, hfail] at hr
    rw [hr]
    rfl

theorem login_failure_blocks_submit_witness :
    (Req.login (QBittorrentClient.loginRequest baseW "u" "p")).isAdd = false :=
  login_failure_blocks_submit envFailW cfgW (RequestType.url "magnet:?a") (by decide)
    (Req.login (QBittorrentClient.loginRequest baseW "u" "p")) (by decide)

/-- C8: whenever the dispatch of an authorized message fails — whatever the
step and whatever data the error carries — the reply sent to the chat is the
single fixed generic failure notice. -/
theorem failure_reply_is_generic (cfg : Configuration) (env : Env) (msg : Message)
    (u : User) (e : BotError)
    (hs : msg.sender = some u)
    (hauth : userAuthorized cfg.user_id u.id = true)
    (herr : (torrents_payload cfg env msg).2 = Except.error e) :
    (torrents_handler cfg env msg).reply = some "⛔Ошибка добавления торрента" := by
  simp [torrents_handler, hs, hauth, herr, replyFor]

theorem failure_reply_is_generic_witness :
    (torrents_handler cfgW envFailW (Message.text (some { id := 42 }) 7 "magnet:?xt=a")).reply =
      some "⛔Ошибка добавления торрента" :=
  failure_reply_is_generic cfgW envFailW (Message.text (some { id := 42 }) 7 "magnet:?xt=a")
    { id := 42 } BotError.authFailed rfl (by decide) (by decide)

/-- C9: the parsed allow-list contains exactly the values of the
comma-separated entries that parse as 64-bit integers; entries that fail to
parse are silently absent, and the computation is total — no entry makes it
report a configuration error. -/
theorem allow_list_membership (s : String) (v : Int) :
    v ∈ allowed_user_ids s ↔ ∃ e ∈ splitEntries s, parseI64 e = some v := by
  unfold allowed_user_ids entryResults
  rw [List.mem_toFinset, List.mem_filterMap]
  constructor
  · rintro ⟨r, hr, hro⟩
    rw [List.mem_map] at hr
    obtain ⟨e, he, hfe⟩ := hr
    refine ⟨e, he, ?_⟩
    cases hp : parseI64 e with
    | some w =>
      rw [hp] at hfe
      rw [← hfe] at hro
      simp [Except.toOption] at hro
      exact congrArg some hro
    | none =>
      rw [hp] at hfe
      rw [← hfe] at hro
      simp [Except.toOption] at hro
  · rintro ⟨e, he, hp⟩
    refine ⟨Except.ok v, ?_, rfl⟩
    rw [List.mem_map]
    exact ⟨e, he, by rw [hp]⟩

/-- C10: a message with no sender terminates `torrents_handler` silently —
no request is issued and no reply is sent, whatever the payload. -/
theorem no_sender_no_action (cfg : Configuration) (env : Env) (msg : Message)
    (h : msg.sender = none) :
    torrents_handler cfg env msg = { requests := [], reply := none } := by
  simp [torrents_handler, h]

theorem no_sender_no_action_witness :
    torrents_handler cfgW envW (Message.document none 7 "file1") =
      { requests := [], reply := none } :=
  no_sender_no_action cfgW envW (Message.document none 7 "file1") rfl

end BitBot
